import Mathlib

/-
Verification development for the stale-while-revalidate cache subsystem of
gh-pr-explorer (Flask backend).  The definitions below are shallow embeddings
of the Python source under src/backend/; each definition's doc comment names
the file and function it embeds.  Time stamps and durations are modelled as
rationals (seconds), resource keys as strings, in-progress sets as duplicate
free lists of strings, and the opaque JSON payloads of each domain as small
inductive structures carrying exactly the fields the cache logic inspects.
-/

namespace GhPrExplorer

/-- A stored cache entry as returned by the stores' get_cached: the parsed
payload together with its updated_at timestamp (seconds, as a rational). -/
structure Row (α : Type) where
  data : α
  updated_at : ℚ
deriving DecidableEq

/-- A raw database row before JSON parsing: the outcome of json.loads on the
stored blob (Except.error for a corrupt blob) plus the updated_at column. -/
structure CacheRowRaw (α : Type) where
  parsed : Except Unit α
  updated_at : ℚ

/-- Payload of the workflow domain: fetch_workflow_data
(src/backend/services/workflow_service.py) returns a dict with keys runs,
workflows and all_time_total; the run and workflow records are opaque to the
cache logic and are modelled by naturals. -/
structure WorkflowData where
  runs : List Nat
  workflows : List Nat
  all_time_total : Nat
deriving DecidableEq

/-- Value of fetch_workflow_data when every sub-call returned Empty: the
dict with empty runs, empty workflows and zero total (the workflow
fetcher's no-data sentinel in the sense of spec section 4.2). -/
def emptyWorkflowData : WorkflowData := ⟨[], [], 0⟩

/-- Payload of the code-activity domain: fetch_code_activity_data
(src/backend/services/activity_service.py) returns a dict of four lists, or
None when all three stats sub-calls were empty; the records are opaque. -/
structure ActivityData where
  weekly_commits : List Nat
  code_changes : List Nat
  owner_commits : List Nat
  community_commits : List Nat
deriving DecidableEq

/-- Metadata attached to every SWR response (spec section 6). -/
structure ResponseMeta where
  cached : Bool
  stale : Bool
  refreshing : Bool
deriving DecidableEq

/-- Outcome of one fetcher invocation as observed by a refresh body: the
fetcher returned a value, or it raised an exception.  An empty "no data"
result is the ok case applied to the domain's sentinel value. -/
inductive FetchOutcome (α : Type) where
  | ok (data : α)
  | exn
deriving DecidableEq

/-- Python set.discard on the in-progress list: remove the key. -/
def discardKey (s : List String) (k : String) : List String :=
  s.filter (fun j => decide (j ≠ k))

/-- Concrete resource key used by witnesses and counterexamples. -/
def keyEx : String := "a/w"

/- ## Cache stores (src/backend/database/cache_stores.py, dev_stats.py) -/

namespace WorkflowCacheDB

/-- WorkflowCacheDB.get_cached (cache_stores.py lines 80-100): returns the
parsed row, and on json.JSONDecodeError logs and returns None (miss). -/
def get_cached {α : Type} (row : Option (CacheRowRaw α)) : Option (Row α) :=
  match row with
  | none => none
  | some r =>
    match r.parsed with
    | Except.ok d => some ⟨d, r.updated_at⟩
    | Except.error _ => none

/-- WorkflowCacheDB.is_stale (cache_stores.py lines 117-132): true when no
row exists, else age_minutes = (now - updated_at)/60 strictly greater than
ttl_minutes.  The row is abstracted to its updated_at column. -/
def is_stale (row : Option ℚ) (ttl_minutes : ℚ) (now : ℚ) : Bool :=
  match row with
  | none => true
  | some updated => decide ((now - updated) / 60 > ttl_minutes)

end WorkflowCacheDB

namespace ContributorTimeSeriesCacheDB

/-- ContributorTimeSeriesCacheDB.get_cached (cache_stores.py lines 160-180):
corrupt JSON is caught and treated as a miss. -/
def get_cached {α : Type} (row : Option (CacheRowRaw α)) : Option (Row α) :=
  match row with
  | none => none
  | some r =>
    match r.parsed with
    | Except.ok d => some ⟨d, r.updated_at⟩
    | Except.error _ => none

end ContributorTimeSeriesCacheDB

namespace CodeActivityCacheDB

/-- CodeActivityCacheDB.get_cached (cache_stores.py lines 231-251): corrupt
JSON is caught and treated as a miss. -/
def get_cached {α : Type} (row : Option (CacheRowRaw α)) : Option (Row α) :=
  match row with
  | none => none
  | some r =>
    match r.parsed with
    | Except.ok d => some ⟨d, r.updated_at⟩
    | Except.error _ => none

end CodeActivityCacheDB

namespace LifecycleCacheDB

/-- LifecycleCacheDB.get_cached (cache_stores.py lines 22-38): json.loads is
not guarded, so a corrupt blob propagates the decode error to the caller. -/
def get_cached {α : Type} (row : Option (CacheRowRaw α)) :
    Except Unit (Option (Row α)) :=
  match row with
  | none => Except.ok none
  | some r =>
    match r.parsed with
    | Except.ok d => Except.ok (some ⟨d, r.updated_at⟩)
    | Except.error e => Except.error e

end LifecycleCacheDB

namespace DeveloperStatsDB

/-- DeveloperStatsDB.CACHE_TTL_HOURS (dev_stats.py line 14). -/
def CACHE_TTL_HOURS : ℚ := 4

/-- DeveloperStatsDB.is_stale (dev_stats.py lines 38-44): true when
get_last_updated is None, else age seconds strictly greater than the fixed
TTL of CACHE_TTL_HOURS * 3600 seconds. -/
def is_stale (last_updated : Option ℚ) (now : ℚ) : Bool :=
  match last_updated with
  | none => true
  | some u => decide (now - u > CACHE_TTL_HOURS * 3600)

end DeveloperStatsDB

/- ## Remote source adapter (src/backend/services/github_service.py) -/

/-- Observable upstream behaviour of one attempt of fetch_github_stats_api:
a missing gh binary makes the very first subprocess call raise
FileNotFoundError (uncaught, since only RuntimeError is handled); a 202
header means the stats endpoint is still computing; ok carries the parsed
JSON of the follow-up call (an empty list when there was no output or the
JSON was invalid); cmdError is a RuntimeError raised by run_gh_command
(gh exited nonzero, i.e. the service was unreachable). -/
inductive GhAttempt (α : Type) where
  | notInstalled
  | pending
  | ok (parsed : List α)
  | cmdError
deriving DecidableEq

/-- Loop body of fetch_github_stats_api (github_service.py lines 43-78),
structured over the number of remaining iterations; remaining counts down
from max_retries, so the current attempt index is max_retries - remaining.
Result: (outcome, number of sleeps, number of attempts made).  The outcome
is Except.error () exactly when FileNotFoundError escaped (gh missing); the
code's explicit returns of [] all become Except.ok []. -/
def fetchGo {α : Type} (responses : Nat → GhAttempt α) (max_retries : Nat) :
    Nat → Except Unit (List α) × Nat × Nat
  | 0 => (Except.ok [], 0, 0)
  | r + 1 =>
    match responses (max_retries - (r + 1)) with
    | GhAttempt.notInstalled => (Except.error (), 0, 1)
    | GhAttempt.pending =>
      if r > 0 then
        let rec1 := fetchGo responses max_retries r
        (rec1.1, rec1.2.1 + 1, rec1.2.2 + 1)
      else (Except.ok [], 0, 1)
    | GhAttempt.ok parsed =>
      if parsed.isEmpty then
        if r > 0 then
          let rec1 := fetchGo responses max_retries r
          (rec1.1, rec1.2.1 + 1, rec1.2.2 + 1)
        else (Except.ok [], 0, 1)
      else (Except.ok parsed, 0, 1)
    | GhAttempt.cmdError =>
      if r > 0 then
        let rec1 := fetchGo responses max_retries r
        (rec1.1, rec1.2.1 + 1, rec1.2.2 + 1)
      else (Except.ok [], 0, 1)

/-- fetch_github_stats_api (github_service.py lines 37-78): run the retry
loop for max_retries iterations over the given per-attempt upstream
responses.  Returns (outcome, sleeps, attempts). -/
def fetch_github_stats_api {α : Type} (responses : Nat → GhAttempt α)
    (max_retries : Nat) : Except Unit (List α) × Nat × Nat :=
  fetchGo responses max_retries max_retries

/- ## Background refresh bodies (one per domain)

Each body is embedded as a function of the fetcher's outcome, the save time,
the current cache row for its key, the domain's in-progress set and the key;
it returns the cache row and in-progress set after the task has finished.
The exn case covers any exception escaping the fetch or save: the except
block only logs, and the finally block always discards the key. -/

/-- The body of _background_refresh_workflows
(src/backend/routes/workflow_routes.py lines 32-44): fetch, then
save_cache unconditionally; on exception log; finally discard the key. -/
def background_refresh_workflows (outcome : FetchOutcome WorkflowData)
    (now : ℚ) (cache : Option (Row WorkflowData)) (s : List String)
    (k : String) : Option (Row WorkflowData) × List String :=
  match outcome with
  | FetchOutcome.ok d => (some ⟨d, now⟩, discardKey s k)
  | FetchOutcome.exn => (cache, discardKey s k)

/-- The body of _background_refresh_stats
(src/backend/routes/analytics_routes.py lines 49-65): save only when the
fetched stats list is non-empty; finally discard the key.  The per
developer records are opaque, so the stats list is a list of naturals. -/
def background_refresh_stats (outcome : FetchOutcome (List Nat)) (now : ℚ)
    (cache : Option (Row (List Nat))) (s : List String) (k : String) :
    Option (Row (List Nat)) × List String :=
  match outcome with
  | FetchOutcome.ok d =>
    (if d.isEmpty then cache else some ⟨d, now⟩, discardKey s k)
  | FetchOutcome.exn => (cache, discardKey s k)

/-- The body of _background_refresh_lifecycle
(src/backend/routes/analytics_routes.py lines 142-155): save only when the
fetched PR list is non-empty; finally discard the key. -/
def background_refresh_lifecycle (outcome : FetchOutcome (List Nat))
    (now : ℚ) (cache : Option (Row (List Nat))) (s : List String)
    (k : String) : Option (Row (List Nat)) × List String :=
  match outcome with
  | FetchOutcome.ok d =>
    (if d.isEmpty then cache else some ⟨d, now⟩, discardKey s k)
  | FetchOutcome.exn => (cache, discardKey s k)

/-- The body of _background_refresh_code_activity
(src/backend/routes/analytics_routes.py lines 218-231): the fetcher returns
None (here: Option.none) when all sub-calls were empty, and the body saves
only when the result is not None; finally discard the key. -/
def background_refresh_code_activity
    (outcome : FetchOutcome (Option ActivityData)) (now : ℚ)
    (cache : Option (Row ActivityData)) (s : List String) (k : String) :
    Option (Row ActivityData) × List String :=
  match outcome with
  | FetchOutcome.ok d =>
    (match d with
     | none => cache
     | some p => some ⟨p, now⟩, discardKey s k)
  | FetchOutcome.exn => (cache, discardKey s k)

/-- The body of _background_refresh_contributor_ts
(src/backend/routes/analytics_routes.py lines 304-317): save only when the
fetched contributor list is non-empty; finally discard the key. -/
def background_refresh_contributor_ts (outcome : FetchOutcome (List Nat))
    (now : ℚ) (cache : Option (Row (List Nat))) (s : List String)
    (k : String) : Option (Row (List Nat)) × List String :=
  match outcome with
  | FetchOutcome.ok d =>
    (if d.isEmpty then cache else some ⟨d, now⟩, discardKey s k)
  | FetchOutcome.exn => (cache, discardKey s k)

/- ## Force-refresh branches -/

/-- The force_refresh branch of get_workflow_runs
(src/backend/routes/workflow_routes.py lines 65-75): fetch synchronously,
save_cache unconditionally (no empty guard), respond with cached=false,
stale=false, refreshing=false. -/
def get_workflow_runs_force (fetched : WorkflowData) (now : ℚ)
    (_cache : Option (Row WorkflowData)) :
    Option (Row WorkflowData) × WorkflowData × ResponseMeta :=
  (some ⟨fetched, now⟩, fetched, ⟨false, false, false⟩)

/-- The force_refresh branch of get_contributor_timeseries
(src/backend/routes/analytics_routes.py lines 328-340): save only when the
fetched list is truthy (non-empty); the prior cache row is otherwise left
as it was, including when no prior row existed. -/
def get_contributor_timeseries_force (fetched : List Nat) (now : ℚ)
    (cache : Option (Row (List Nat))) :
    Option (Row (List Nat)) × List Nat × ResponseMeta :=
  (if fetched.isEmpty then cache else some ⟨fetched, now⟩,
   fetched, ⟨false, false, false⟩)

/-- The force_refresh branch of get_code_activity
(src/backend/routes/analytics_routes.py lines 244-257): save only when the
fetcher returned a value other than None; on None the handler substitutes
an empty response object without writing the cache. -/
def get_code_activity_force (fetched : Option ActivityData) (now : ℚ)
    (cache : Option (Row ActivityData)) :
    Option (Row ActivityData) × ActivityData × ResponseMeta :=
  (match fetched with
   | none => cache
   | some d => some ⟨d, now⟩,
   (match fetched with
    | none => ⟨[], [], [], []⟩
    | some d => d),
   ⟨false, false, false⟩)

/- ## Non-force request handlers -/

/-- The non-force path of get_workflow_runs
(src/backend/routes/workflow_routes.py lines 77-112).  Inputs: the cached
row, the is_stale verdict, the in-progress set, the data a synchronous
fetch would produce (used only on the no-cache path) and its save time.
Output: (served payload, response metadata, cache row afterwards,
in-progress set afterwards, whether a background thread was started).
On the cached branch the stale field is the is_stale verdict and
refreshing is set to true in both arms of the locked check. -/
def get_workflow_runs (cache : Option (Row WorkflowData)) (isStale : Bool)
    (s : List String) (fetched : WorkflowData) (now : ℚ) (k : String) :
    WorkflowData × ResponseMeta × Option (Row WorkflowData) ×
      List String × Bool :=
  match cache with
  | some row =>
    if isStale then
      if k ∈ s then (row.data, ⟨true, isStale, true⟩, cache, s, false)
      else (row.data, ⟨true, isStale, true⟩, cache, k :: s, true)
    else (row.data, ⟨true, isStale, false⟩, cache, s, false)
  | none => (fetched, ⟨false, false, false⟩, some ⟨fetched, now⟩, s, false)

/-- The shared lifecycle helper _get_lifecycle_data
(src/backend/routes/analytics_routes.py lines 158-189) together with
fetch_pr_review_times (src/backend/services/lifecycle_service.py lines
12-31): serve the cached payload when a row exists (even stale), else
fetch synchronously and save unconditionally; then, only when is_stale and
the served list is non-empty, run the locked acquire (refreshing is true
in both arms); the metadata reports cached, stale only when cached, and
the refreshing flag computed above. -/
def get_lifecycle_data (cache : Option (Row (List Nat))) (isStale : Bool)
    (s : List String) (fetched : List Nat) (now : ℚ) (k : String) :
    List Nat × ResponseMeta × Option (Row (List Nat)) ×
      List String × Bool :=
  let prs : List Nat :=
    match cache with
    | some row => row.data
    | none => fetched
  let cache1 : Option (Row (List Nat)) :=
    match cache with
    | some _ => cache
    | none => some ⟨fetched, now⟩
  let acq : Bool × List String × Bool :=
    if isStale = true ∧ prs ≠ [] then
      if k ∈ s then (true, s, false) else (true, k :: s, true)
    else (false, s, false)
  (prs,
   ⟨cache.isSome, if cache.isSome then isStale else false, acq.1⟩,
   cache1, acq.2.1, acq.2.2)

/- ## Startup warmer (src/backend/__init__.py) -/

/-- One iteration of the per-repo loop of startup_refresh_workflow_caches
(src/backend/__init__.py lines 35-51) for a well-formed key: when the key
is stale, the warmer inserts the key into the in-progress set only if it
is absent, but then performs the refresh UNCONDITIONALLY (the try block is
not guarded by the membership test) saving the fetched data with no empty
guard, and the finally block discards the key regardless of whether this
visit inserted it.  Result: (whether a refresh was performed, cache row
afterwards, in-progress set afterwards). -/
def startup_refresh_workflow_visit (isStale : Bool)
    (outcome : FetchOutcome WorkflowData) (now : ℚ)
    (cache : Option (Row WorkflowData)) (s : List String) (k : String) :
    Bool × Option (Row WorkflowData) × List String :=
  if isStale then
    let s1 := if k ∈ s then s else k :: s
    match outcome with
    | FetchOutcome.ok d => (true, some ⟨d, now⟩, discardKey s1 k)
    | FetchOutcome.exn => (true, cache, discardKey s1 k)
  else (false, cache, s)

/-- One iteration of the per-repo loop of startup_refresh_stats_caches
(src/backend/__init__.py lines 65-86): same unconditional structure as the
workflow warmer, except that the save is guarded by a non-empty stats
list. -/
def startup_refresh_stats_visit (isStale : Bool)
    (outcome : FetchOutcome (List Nat)) (now : ℚ)
    (cache : Option (Row (List Nat))) (s : List String) (k : String) :
    Bool × Option (Row (List Nat)) × List String :=
  if isStale then
    let s1 := if k ∈ s then s else k :: s
    match outcome with
    | FetchOutcome.ok d =>
      (true, if d.isEmpty then cache else some ⟨d, now⟩, discardKey s1 k)
    | FetchOutcome.exn => (true, cache, discardKey s1 k)
  else (false, cache, s)

/- ## Concurrency model of the workflow domain coordinator

The shared mutable state consists of the in-progress set
workflow_refresh_in_progress guarded by workflow_refresh_lock
(src/backend/extensions.py lines 28-29).  Each atomic step below is one
critical section of the Python code (or a thread termination): the locked
check-and-insert of the request path, the finally discard of a finished
background task, and the two critical sections of the startup warmer.
inflight counts running background refresh threads per key; created counts
threads ever created per key. -/
structure WfState where
  inProgress : List String
  inflight : String → Nat
  created : String → Nat

/-- Process start: empty set, no threads. -/
def initWfState : WfState := ⟨[], fun _ => 0, fun _ => 0⟩

/-- Pointwise increment of a per-key counter. -/
def bumpAt (f : String → Nat) (k : String) : String → Nat :=
  fun j => if j = k then f j + 1 else f j

/-- Pointwise decrement of a per-key counter. -/
def dropAt (f : String → Nat) (k : String) : String → Nat :=
  fun j => if j = k then f j - 1 else f j

/-- Atomic events on the workflow coordinator state. -/
inductive WfStep where
  | request (k : String)
  | taskDone (k : String)
  | warmerMark (k : String)
  | warmerDone (k : String)

/-- Whether a step belongs to the startup warmer. -/
def WfStep.fromWarmer : WfStep → Bool
  | WfStep.warmerMark _ => true
  | WfStep.warmerDone _ => true
  | _ => false

/-- Semantics of one atomic event.
request k: the locked block of get_workflow_runs (workflow_routes.py lines
83-94) run by a request that found k cached and stale: if k is absent it
is inserted and a background thread is started, otherwise nothing changes
(the request reports refreshing without a second task).
taskDone k: a background task terminates; its finally block (lines 42-44)
discards k under the lock.
warmerMark k: the first locked block of startup_refresh_workflow_caches
(__init__.py lines 39-41): insert k only if absent; no thread is started
(the warmer refreshes inline) and crucially the warmer does not skip the
key when it was already present.
warmerDone k: the warmer's finally block (lines 49-51): discard k
unconditionally, even when the mark step found k already present. -/
def stepWf (s : WfState) : WfStep → WfState
  | WfStep.request k =>
    if k ∈ s.inProgress then s
    else
      { inProgress := k :: s.inProgress,
        inflight := bumpAt s.inflight k,
        created := bumpAt s.created k }
  | WfStep.taskDone k =>
    if s.inflight k = 0 then s
    else
      { inProgress := discardKey s.inProgress k,
        inflight := dropAt s.inflight k,
        created := s.created }
  | WfStep.warmerMark k =>
    if k ∈ s.inProgress then s
    else { s with inProgress := k :: s.inProgress }
  | WfStep.warmerDone k =>
    { s with inProgress := discardKey s.inProgress k }

/-- Run a finite trace of atomic events. -/
def runWf (s : WfState) : List WfStep → WfState
  | [] => s
  | st :: rest => runWf (stepWf s st) rest

/-- Coordinator invariant: a key has a running background task only while it
holds a ticket, and never more than one. -/
def WfInv (s : WfState) : Prop :=
  ∀ k, s.inflight k ≤ if k ∈ s.inProgress then 1 else 0

/- ## Helper lemmas -/

theorem not_mem_discardKey (s : List String) (k : String) :
    k ∉ discardKey s k := by
  simp [discardKey, List.mem_filter]

theorem mem_discardKey_iff (j k : String) (s : List String) (h : j ≠ k) :
    j ∈ discardKey s k ↔ j ∈ s := by
  simp [discardKey, List.mem_filter, h]

theorem wfInv_init : WfInv initWfState := by
  intro k
  simp [initWfState, WfInv]

theorem wfInv_step (s : WfState) (st : WfStep)
    (hw : WfStep.fromWarmer st = false) (h : WfInv s) :
    WfInv (stepWf s st) := by
  cases st with
  | request k =>
    intro j
    by_cases hk : k ∈ s.inProgress
    · simpa [stepWf, hk] using h j
    · by_cases hj : j = k
      · subst hj
        have h0 : s.inflight j = 0 := Nat.le_zero.mp (by simpa [hk] using h j)
        simp [stepWf, hk, bumpAt, h0, List.mem_cons]
      · have hb := h j
        simp only [stepWf, if_neg hk]
        simpa [bumpAt, hj, List.mem_cons] using hb
  | taskDone k =>
    intro j
    by_cases h0 : s.inflight k = 0
    · simpa [stepWf, h0] using h j
    · by_cases hj : j = k
      · subst hj
        have h1 : s.inflight j ≤ 1 := by
          refine le_trans (h j) ?_
          split <;> simp
        simp only [stepWf, if_neg h0]
        simp [dropAt, not_mem_discardKey]
        omega
      · have hb := h j
        simp only [stepWf, if_neg h0]
        simpa [dropAt, hj, mem_discardKey_iff j k _ hj] using hb
  | warmerMark k => simp [WfStep.fromWarmer] at hw
  | warmerDone k => simp [WfStep.fromWarmer] at hw

theorem wfInv_run (tr : List WfStep) :
    ∀ (s : WfState), (∀ st ∈ tr, WfStep.fromWarmer st = false) →
      WfInv s → WfInv (runWf s tr) := by
  induction tr with
  | nil => intro s _ h; exact h
  | cons st rest ih =>
    intro s hw h
    exact ih (stepWf s st)
      (fun x hx => hw x (List.mem_cons_of_mem st hx))
      (wfInv_step s st (hw st (List.mem_cons_self st rest)) h)

theorem runWf_request_fix (k : String) :
    ∀ (n : Nat) (s : WfState), k ∈ s.inProgress →
      runWf s (List.replicate n (WfStep.request k)) = s := by
  intro n
  induction n with
  | zero => intro s _; rfl
  | succ n ih =>
    intro s hk
    simp only [List.replicate_succ, runWf]
    rw [show stepWf s (WfStep.request k) = s from by simp [stepWf, hk]]
    exact ih s hk

theorem created_after_requests (k : String) :
    ∀ (n : Nat) (s : WfState),
      (runWf s (List.replicate n (WfStep.request k))).created k ≤
        s.created k + 1 := by
  intro n
  induction n with
  | zero => intro s; exact Nat.le_succ _
  | succ n _ =>
    intro s
    by_cases hk : k ∈ s.inProgress
    · rw [runWf_request_fix k (n + 1) s hk]
      exact Nat.le_succ _
    · simp only [List.replicate_succ, runWf]
      have hk1 : k ∈ (stepWf s (WfStep.request k)).inProgress := by
        simp [stepWf, hk]
      rw [runWf_request_fix k n _ hk1]
      simp [stepWf, hk, bumpAt]

theorem fetchGo_pending {α : Type} (m : Nat) :
    ∀ r, 1 ≤ r →
      fetchGo (fun _ => (GhAttempt.pending : GhAttempt α)) m r =
        (Except.ok [], r - 1, r) := by
  intro r
  induction r with
  | zero => intro h; exact absurd h (by simp)
  | succ r ih =>
    intro _
    by_cases hr : 1 ≤ r
    · simp only [fetchGo, if_pos (Nat.lt_of_lt_of_le Nat.zero_lt_one hr),
        ih hr]
      have h1 : r - 1 + 1 = r := Nat.succ_pred_eq_of_pos hr
      simp [h1]
    · have hr0 : r = 0 := Nat.eq_zero_of_not_pos hr
      subst hr0
      simp [fetchGo]

theorem fetchGo_cmdError {α : Type} (m : Nat) :
    ∀ r, 1 ≤ r →
      fetchGo (fun _ => (GhAttempt.cmdError : GhAttempt α)) m r =
        (Except.ok [], r - 1, r) := by
  intro r
  induction r with
  | zero => intro h; exact absurd h (by simp)
  | succ r ih =>
    intro _
    by_cases hr : 1 ≤ r
    · simp only [fetchGo, if_pos (Nat.lt_of_lt_of_le Nat.zero_lt_one hr),
        ih hr]
      have h1 : r - 1 + 1 = r := Nat.succ_pred_eq_of_pos hr
      simp [h1]
    · have hr0 : r = 0 := Nat.eq_zero_of_not_pos hr
      subst hr0
      simp [fetchGo]

/- ## Claim theorems -/

/-- C1 (amended): in the request path the check-and-insert on the workflow
in-progress set is one atomic critical section under the domain lock, so as
long as no startup-warmer critical section interleaves, at most one
background refresh task per key is ever in flight; and any number of
requests arriving against a stale-and-cached key create at most one
background task between them.  (The unqualified claim that at most one task
is EVER in flight fails once the startup warmer runs concurrently: see the
counterexample trace, where the warmer discards a ticket owned by a live
task and a later request then starts a second task.) -/
theorem C1_request_path_single_flight (tr : List WfStep)
    (h : ∀ st ∈ tr, WfStep.fromWarmer st = false) :
    (∀ k, (runWf initWfState tr).inflight k ≤ 1) ∧
    (∀ (s : WfState) (k : String) (n : Nat),
      (runWf s (List.replicate n (WfStep.request k))).created k ≤
        s.created k + 1) := by
  constructor
  · intro k
    have hinv := wfInv_run tr initWfState h wfInv_init
    refine le_trans (hinv k) ?_
    split <;> simp
  · intro s k n
    exact created_after_requests k n s

/-- C1 witness: a concrete warmer-free trace (request, task completion,
second request) keeps the in-flight count of the key at most one. -/
theorem C1_request_path_single_flight_witness :
    (∀ st ∈ [WfStep.request keyEx, WfStep.taskDone keyEx,
        WfStep.request keyEx], WfStep.fromWarmer st = false) ∧
    (runWf initWfState [WfStep.request keyEx, WfStep.taskDone keyEx,
        WfStep.request keyEx]).inflight keyEx ≤ 1 :=
  ⟨by decide,
   (C1_request_path_single_flight
     [WfStep.request keyEx, WfStep.taskDone keyEx, WfStep.request keyEx]
     (by decide)).1 keyEx⟩

/-- C1 counterexample: a request starts a background task for the key; the
startup warmer then visits the same (stale) key, finds it already marked,
refreshes anyway and unconditionally discards the ticket; a second request
now finds the set empty and starts another task, so two background refresh
tasks for the key are in flight at once — refuting the claim that at most
one is ever in flight. -/
theorem C1_two_refresh_tasks_in_flight :
    (runWf initWfState [WfStep.request keyEx, WfStep.warmerMark keyEx,
      WfStep.warmerDone keyEx, WfStep.request keyEx]).inflight keyEx = 2 :=
  rfl

/-- C2 (amended): a background refresh that obtains the fetcher's no-data
sentinel leaves the cache untouched in the dev-stats, lifecycle,
code-activity and contributor-time-series domains; but the workflow
domain's background refresh saves the fetched value unconditionally, so
there an empty result overwrites whatever was cached. -/
theorem C2_no_poisoning_amended :
    (∀ (now : ℚ) (c : Option (Row (List Nat))) (s : List String)
        (k : String),
      (background_refresh_stats (FetchOutcome.ok []) now c s k).1 = c) ∧
    (∀ (now : ℚ) (c : Option (Row (List Nat))) (s : List String)
        (k : String),
      (background_refresh_lifecycle (FetchOutcome.ok []) now c s k).1 = c) ∧
    (∀ (now : ℚ) (c : Option (Row ActivityData)) (s : List String)
        (k : String),
      (background_refresh_code_activity (FetchOutcome.ok none) now c s
        k).1 = c) ∧
    (∀ (now : ℚ) (c : Option (Row (List Nat))) (s : List String)
        (k : String),
      (background_refresh_contributor_ts (FetchOutcome.ok []) now c s
        k).1 = c) ∧
    (∀ (now : ℚ) (d : WorkflowData) (c : Option (Row WorkflowData))
        (s : List String) (k : String),
      (background_refresh_workflows (FetchOutcome.ok d) now c s k).1 =
        some ⟨d, now⟩) := by
  refine ⟨?_, ?_, ?_, ?_, ?_⟩ <;> intros <;> rfl

/-- C2 counterexample: in the workflow domain a background refresh whose
fetch produced the empty sentinel overwrites a non-empty cached payload,
so the cache no longer holds the prior payload afterwards. -/
theorem C2_workflow_empty_overwrite :
    (background_refresh_workflows (FetchOutcome.ok emptyWorkflowData) 1
      (some ⟨⟨[7], [3], 9⟩, 0⟩) [] keyEx).1 = some ⟨emptyWorkflowData, 1⟩ ∧
    (background_refresh_workflows (FetchOutcome.ok emptyWorkflowData) 1
      (some ⟨⟨[7], [3], 9⟩, 0⟩) [] keyEx).1 ≠ some ⟨⟨[7], [3], 9⟩, 0⟩ :=
  ⟨rfl, by decide⟩

/-- C3: every background refresh body removes its key from the domain's
in-progress set on every exit path — fetch succeeded (including an empty
result, which is the ok case applied to the sentinel) or raised — because
the discard lives in a finally block; so after the task completes the key
is no longer in the set, in all five domains. -/
theorem C3_ticket_release :
    (∀ (o : FetchOutcome WorkflowData) (now : ℚ)
        (c : Option (Row WorkflowData)) (s : List String) (k : String),
      k ∉ (background_refresh_workflows o now c s k).2) ∧
    (∀ (o : FetchOutcome (List Nat)) (now : ℚ)
        (c : Option (Row (List Nat))) (s : List String) (k : String),
      k ∉ (background_refresh_stats o now c s k).2) ∧
    (∀ (o : FetchOutcome (List Nat)) (now : ℚ)
        (c : Option (Row (List Nat))) (s : List String) (k : String),
      k ∉ (background_refresh_lifecycle o now c s k).2) ∧
    (∀ (o : FetchOutcome (Option ActivityData)) (now : ℚ)
        (c : Option (Row ActivityData)) (s : List String) (k : String),
      k ∉ (background_refresh_code_activity o now c s k).2) ∧
    (∀ (o : FetchOutcome (List Nat)) (now : ℚ)
        (c : Option (Row (List Nat))) (s : List String) (k : String),
      k ∉ (background_refresh_contributor_ts o now c s k).2) := by
  refine ⟨?_, ?_, ?_, ?_, ?_⟩ <;>
    · intro o now c s k
      cases o <;>
        simpa [background_refresh_workflows, background_refresh_stats,
          background_refresh_lifecycle, background_refresh_code_activity,
          background_refresh_contributor_ts] using
          not_mem_discardKey s k

/-- C4 (amended): a non-force request against an existing stale cache entry
serves the stored payload with metadata cached=true, stale=true,
refreshing=true whether or not the request acquired the ticket — in the
workflow domain unconditionally, and in the lifecycle domain whenever the
stored payload is non-empty; when the lifecycle entry's stored payload is
the empty list, the handler instead reports refreshing=false and launches
no background refresh. -/
theorem C4_cached_stale_amended :
    (∀ (row : Row WorkflowData) (s : List String) (fetched : WorkflowData)
        (now : ℚ) (k : String),
      (get_workflow_runs (some row) true s fetched now k).1 = row.data ∧
      (get_workflow_runs (some row) true s fetched now k).2.1 =
        ⟨true, true, true⟩) ∧
    (∀ (row : Row (List Nat)) (s : List String) (fetched : List Nat)
        (now : ℚ) (k : String), row.data ≠ [] →
      (get_lifecycle_data (some row) true s fetched now k).1 = row.data ∧
      (get_lifecycle_data (some row) true s fetched now k).2.1 =
        ⟨true, true, true⟩) ∧
    (∀ (row : Row (List Nat)) (s : List String) (fetched : List Nat)
        (now : ℚ) (k : String), row.data = [] →
      (get_lifecycle_data (some row) true s fetched now k).2.1 =
        ⟨true, true, false⟩ ∧
      (get_lifecycle_data (some row) true s fetched now k).2.2.2.2 =
        false) := by
  refine ⟨?_, ?_, ?_⟩
  · intro row s fetched now k
    by_cases hk : k ∈ s <;> simp [get_workflow_runs, hk]
  · intro row s fetched now k hrow
    by_cases hk : k ∈ s <;> simp [get_lifecycle_data, hrow, hk]
  · intro row s fetched now k hrow
    simp [get_lifecycle_data, hrow]

/-- C4 witness: a stale lifecycle entry with a non-empty stored payload is
served with cached=true, stale=true, refreshing=true. -/
theorem C4_cached_stale_witness :
    (([5] : List Nat) ≠ []) ∧
    (get_lifecycle_data (some ⟨[5], 0⟩) true [] [] 1 keyEx).2.1 =
      ⟨true, true, true⟩ :=
  ⟨by decide,
   (C4_cached_stale_amended.2.1 ⟨[5], 0⟩ [] [] 1 keyEx (by decide)).2⟩

/-- C4 counterexample: a stale lifecycle cache entry whose stored payload
is the empty list (reachable, because the lifecycle bootstrap path saves
even an empty fetch result) is served with refreshing=false, not the
claimed refreshing=true. -/
theorem C4_lifecycle_empty_refreshing_false :
    (get_lifecycle_data (some ⟨[], 0⟩) true [] [] 1 keyEx).2.1 =
      ⟨true, true, false⟩ ∧
    (get_lifecycle_data (some ⟨[], 0⟩) true [] [] 1 keyEx).2.1 ≠
      ⟨true, true, true⟩ :=
  ⟨rfl, by decide⟩

/-- C5 (amended): a force-refresh whose synchronous fetch obtains the
no-data sentinel saves unconditionally in the workflow domain (overwriting
any prior entry with the sentinel), and never saves in the
contributor-time-series and code-activity domains — the prior cache row,
or its absence, is left exactly as it was, including on a first-ever
fetch.  In no domain does "overwrite iff no prior entry existed" hold. -/
theorem C5_force_empty_amended :
    (∀ (d : WorkflowData) (now : ℚ) (c : Option (Row WorkflowData)),
      (get_workflow_runs_force d now c).1 = some ⟨d, now⟩) ∧
    (∀ (now : ℚ) (c : Option (Row (List Nat))),
      (get_contributor_timeseries_force [] now c).1 = c) ∧
    (∀ (now : ℚ) (c : Option (Row ActivityData)),
      (get_code_activity_force none now c).1 = c) := by
  refine ⟨?_, ?_, ?_⟩ <;> intros <;> rfl

/-- C5 counterexample: the claimed iff fails in both directions — a
workflow force-refresh obtaining the empty sentinel does NOT preserve the
existing non-empty entry, and a contributor-time-series force-refresh
obtaining the empty list does NOT write the cache on a first-ever fetch
(no prior entry, still no entry afterwards). -/
theorem C5_force_empty_iff_fails :
    (get_workflow_runs_force emptyWorkflowData 1
      (some ⟨⟨[7], [3], 9⟩, 0⟩)).1 ≠ some ⟨⟨[7], [3], 9⟩, 0⟩ ∧
    (get_contributor_timeseries_force [] 1 none).1 = none :=
  ⟨by decide, rfl⟩

/-- C6: is_stale is true unconditionally when no row exists, and for an
existing row it is true exactly when the age strictly exceeds the TTL
(WorkflowCacheDB: (now - updated_at)/60 minutes against ttl_minutes;
DeveloperStatsDB: seconds against the fixed 4-hour TTL); at an age exactly
equal to the TTL the entry is not stale. -/
theorem C6_staleness_boundary :
    (∀ (ttl now : ℚ), WorkflowCacheDB.is_stale none ttl now = true) ∧
    (∀ (u ttl now : ℚ),
      WorkflowCacheDB.is_stale (some u) ttl now = true ↔
        60 * ttl < now - u) ∧
    (∀ (u ttl : ℚ),
      WorkflowCacheDB.is_stale (some u) ttl (u + 60 * ttl) = false) ∧
    (∀ (now : ℚ), DeveloperStatsDB.is_stale none now = true) ∧
    (∀ (u now : ℚ),
      DeveloperStatsDB.is_stale (some u) now = true ↔
        4 * 3600 < now - u) ∧
    (∀ (u : ℚ), DeveloperStatsDB.is_stale (some u) (u + 4 * 3600) = false) := by
  refine ⟨?_, ?_, ?_, ?_, ?_, ?_⟩
  · intro ttl now; rfl
  · intro u ttl now
    simp only [WorkflowCacheDB.is_stale, decide_eq_true_eq, gt_iff_lt,
      lt_div_iff₀ (show (0:ℚ) < 60 by norm_num)]
    constructor
    · intro h; linarith
    · intro h; linarith
  · intro u ttl
    simp only [WorkflowCacheDB.is_stale]
    rw [decide_eq_false_iff_not]
    intro h
    rw [gt_iff_lt, lt_div_iff₀ (show (0:ℚ) < 60 by norm_num)] at h
    linarith
  · intro now; rfl
  · intro u now
    simp only [DeveloperStatsDB.is_stale, DeveloperStatsDB.CACHE_TTL_HOURS,
      decide_eq_true_eq, gt_iff_lt]
  · intro u
    simp only [DeveloperStatsDB.is_stale, DeveloperStatsDB.CACHE_TTL_HOURS]
    rw [decide_eq_false_iff_not]
    intro h
    rw [gt_iff_lt] at h
    linarith

/-- C7: when every attempt reports the 202 pending status,
fetch_github_stats_api returns the empty list (an ok value, not an error)
after exactly max_retries attempts, having slept exactly max_retries - 1
times — no sleep follows the final attempt. -/
theorem C7_retry_on_pending {α : Type} (m : Nat) (h : 1 ≤ m) :
    fetch_github_stats_api (fun _ => (GhAttempt.pending : GhAttempt α)) m =
      (Except.ok [], m - 1, m) :=
  fetchGo_pending m m h

/-- C7 witness: with max_retries = 3 and three pending responses the
adapter returns the empty list after 3 attempts and 2 sleeps. -/
theorem C7_retry_on_pending_witness :
    1 ≤ 3 ∧
    fetch_github_stats_api (fun _ => (GhAttempt.pending : GhAttempt Nat))
      3 = (Except.ok [], 2, 3) :=
  ⟨by decide, C7_retry_on_pending 3 (by decide)⟩

/-- C8 (amended): the adapter never raises for pending responses; a missing
gh binary escapes as a typed FileNotFoundError on the first attempt, which
is distinguishable from the Empty result; but a transport failure that
surfaces as a RuntimeError from run_gh_command (service unreachable, gh
exiting nonzero) is caught and, after exhausting retries, yields exactly
the same Empty value (the ok empty list) as exhausted-pending — it is NOT
a distinguishable typed failure. -/
theorem C8_transport_amended (m : Nat) (h : 1 ≤ m) :
    (fetch_github_stats_api
      (fun _ => (GhAttempt.pending : GhAttempt Nat)) m).1 =
        Except.ok [] ∧
    (fetch_github_stats_api
      (fun _ => (GhAttempt.cmdError : GhAttempt Nat)) m).1 =
        Except.ok [] ∧
    (∀ responses : Nat → GhAttempt Nat,
      responses 0 = GhAttempt.notInstalled →
        (fetch_github_stats_api responses m).1 = Except.error ()) := by
  refine ⟨?_, ?_, ?_⟩
  · rw [fetch_github_stats_api, fetchGo_pending m m h]
  · rw [fetch_github_stats_api, fetchGo_cmdError m m h]
  · intro responses hresp
    obtain ⟨r, rfl⟩ : ∃ r, m = r + 1 :=
      ⟨m - 1, (Nat.succ_pred_eq_of_pos h).symm⟩
    simp [fetch_github_stats_api, fetchGo, hresp]

/-- C8 witness: with max_retries = 2, a command-error transport failure on
every attempt ends in the ok empty list, not an error. -/
theorem C8_transport_amended_witness :
    1 ≤ 2 ∧
    (fetch_github_stats_api
      (fun _ => (GhAttempt.cmdError : GhAttempt Nat)) 2).1 =
        Except.ok [] :=
  ⟨by decide, (C8_transport_amended 2 (by decide)).2.1⟩

/-- C8 counterexample: with max_retries = 3, the outcome after a hard
transport failure (RuntimeError) on every attempt is the very same value
as the Empty returned for exhausted-pending — refuting the claim that the
two are distinguishable. -/
theorem C8_transport_equals_pending_empty :
    (fetch_github_stats_api
      (fun _ => (GhAttempt.cmdError : GhAttempt Nat)) 3).1 =
      (fetch_github_stats_api
        (fun _ => (GhAttempt.pending : GhAttempt Nat)) 3).1 ∧
    (fetch_github_stats_api
      (fun _ => (GhAttempt.cmdError : GhAttempt Nat)) 3).1 =
        Except.ok [] :=
  ⟨rfl, rfl⟩

/-- C9 (amended): for every stale key the startup warmers (workflow and
dev-stats) insert the key into the in-progress set only when absent but
then perform the refresh UNCONDITIONALLY — also when the key was already
marked by a concurrent request's refresh — and afterwards unconditionally
remove the key from the set, releasing a ticket this visit may never have
acquired; non-stale keys are left completely untouched.  Stale keys whose
refresh is already in flight are NOT skipped. -/
theorem C9_warmer_amended :
    (∀ (o : FetchOutcome WorkflowData) (now : ℚ)
        (c : Option (Row WorkflowData)) (s : List String) (k : String),
      (startup_refresh_workflow_visit true o now c s k).1 = true ∧
      k ∉ (startup_refresh_workflow_visit true o now c s k).2.2 ∧
      startup_refresh_workflow_visit false o now c s k = (false, c, s)) ∧
    (∀ (o : FetchOutcome (List Nat)) (now : ℚ)
        (c : Option (Row (List Nat))) (s : List String) (k : String),
      (startup_refresh_stats_visit true o now c s k).1 = true ∧
      k ∉ (startup_refresh_stats_visit true o now c s k).2.2 ∧
      startup_refresh_stats_visit false o now c s k = (false, c, s)) := by
  constructor
  · intro o now c s k
    refine ⟨?_, ?_, rfl⟩
    · cases o <;> simp [startup_refresh_workflow_visit]
    · cases o <;>
        simpa [startup_refresh_workflow_visit] using
          not_mem_discardKey (if k ∈ s then s else k :: s) k
  · intro o now c s k
    refine ⟨?_, ?_, rfl⟩
    · cases o <;> simp [startup_refresh_stats_visit]
    · cases o <;>
        simpa [startup_refresh_stats_visit] using
          not_mem_discardKey (if k ∈ s then s else k :: s) k

/-- C9 counterexample: the warmer visits a stale key that is already in the
in-progress set — yet it performs the refresh anyway (first component true,
where the claim requires a skip) and afterwards the set is empty, i.e. it
released the ticket held by the refresh already in flight. -/
theorem C9_warmer_refreshes_inflight_key :
    (startup_refresh_workflow_visit true
      (FetchOutcome.ok emptyWorkflowData) 1 (some ⟨⟨[7], [3], 9⟩, 0⟩)
      [keyEx] keyEx).1 = true ∧
    (startup_refresh_workflow_visit true
      (FetchOutcome.ok emptyWorkflowData) 1 (some ⟨⟨[7], [3], 9⟩, 0⟩)
      [keyEx] keyEx).2.2 = [] :=
  ⟨rfl, rfl⟩

/-- C10: get_cached on a row whose stored blob fails JSON parsing returns
None (a cache miss, the row itself untouched since get_cached only reads)
in the Workflow, ContributorTimeSeries and CodeActivity stores, while the
Lifecycle store propagates the decode error; and a miss sends the next
workflow request down the no-cache synchronous-fetch path (metadata
cached=false, stale=false, refreshing=false). -/
theorem C10_corrupt_payload_totality :
    (∀ (t : ℚ), WorkflowCacheDB.get_cached (α := Nat)
      (some ⟨Except.error (), t⟩) = none) ∧
    (∀ (t : ℚ), ContributorTimeSeriesCacheDB.get_cached (α := Nat)
      (some ⟨Except.error (), t⟩) = none) ∧
    (∀ (t : ℚ), CodeActivityCacheDB.get_cached (α := Nat)
      (some ⟨Except.error (), t⟩) = none) ∧
    (∀ (t : ℚ), LifecycleCacheDB.get_cached (α := Nat)
      (some ⟨Except.error (), t⟩) = Except.error ()) ∧
    (∀ (b : Bool) (s : List String) (fetched : WorkflowData) (now : ℚ)
        (k : String),
      (get_workflow_runs none b s fetched now k).2.1 =
        ⟨false, false, false⟩) := by
  refine ⟨?_, ?_, ?_, ?_, ?_⟩ <;> intros <;> rfl

end GhPrExplorer
